import Mathlib

/-!
Verification of the Bayesian-ridge fixed-precision configurator and the
surrounding notebook script from `src/_build/jupyter_execute/content/c2/code.ipynb`.

Python floats are embedded as rationals (`ℚ`); the notebook's inline
bindings are embedded as constant definitions in namespace `Code`, keeping
the source's names.  The spec re-architects the inline script as a pure
function of three inputs (`sigma2`, `tau`, `confidence_scale`); that
function is not present in the source, so it is modelled from the spec and
checked against the source's hard-coded instantiation.
-/

/-- The six-value result of the configurator: four Gamma hyperparameters
and the two initial-value seeds. -/
structure ConfigResult where
  alpha_1 : ℚ
  alpha_2 : ℚ
  lambda_1 : ℚ
  lambda_2 : ℚ
  alpha : ℚ
  lambda_param : ℚ
deriving Repr, DecidableEq

/-- The six named numeric options accepted by the external Bayesian ridge
fitting routine (spec section 6). -/
structure BayesRidgeArgs where
  alpha_1 : ℚ
  alpha_2 : ℚ
  alpha_init : ℚ
  lambda_1 : ℚ
  lambda_2 : ℚ
  lambda_init : ℚ
deriving Repr, DecidableEq

namespace Code

/-- Source: `big_number = 10**5`. -/
def big_number : ℚ := 10 ^ 5

/-- Source: `alpha = 1/11.8` (11.8 = 59/5 as a rational). -/
def alpha : ℚ := 1 / (59 / 5)

/-- Source: `alpha_1 = big_number*alpha`. -/
def alpha_1 : ℚ := big_number * alpha

/-- Source: `alpha_2 = big_number`. -/
def alpha_2 : ℚ := big_number

/-- Source: `lam = 1/10`. -/
def lam : ℚ := 1 / 10

/-- Source: `lambda_1 = big_number*lam`. -/
def lambda_1 : ℚ := big_number * lam

/-- Source: `lambda_2 = big_number`. -/
def lambda_2 : ℚ := big_number

/-- Source: the keyword arguments of the fitting call
`BayesianRidge(alpha_1 = alpha_1, alpha_2 = alpha_2, alpha_init = alpha,
lambda_1 = lambda_1, lambda_2 = lambda_2, lambda_init = lam)`. -/
def bayes_model_args : BayesRidgeArgs :=
  { alpha_1 := alpha_1
    alpha_2 := alpha_2
    alpha_init := alpha
    lambda_1 := lambda_1
    lambda_2 := lambda_2
    lambda_init := lam }

end Code

/-- Modelled from the spec: the Fixed-Precision Bayesian Ridge Configurator
(spec section 4.1) as a pure function of `sigma2`, `tau`,
`confidence_scale`.  The source holds only the inline instantiation at
`sigma2 = 11.8`, `tau = 10`, `confidence_scale = 10^5` (namespace `Code`);
the computation block here follows the source's arithmetic with the three
literals abstracted as parameters, exactly as spec section 4.1 writes it. -/
def configure (sigma2 tau confidence_scale : ℚ) : ConfigResult :=
  let alpha := 1 / sigma2
  let lambda_param := 1 / tau
  { alpha_1 := confidence_scale * alpha
    alpha_2 := confidence_scale
    lambda_1 := confidence_scale * lambda_param
    lambda_2 := confidence_scale
    alpha := alpha
    lambda_param := lambda_param }

/-- The single error condition of the configurator (spec section 7). -/
inductive ConfigError where
  | invalidArgument
deriving Repr, DecidableEq

/-- Modelled from the spec: the configurator with its input validation
(spec section 7): any of `sigma2`, `tau`, `confidence_scale` less than or
equal to zero is reported as `invalidArgument` before any computation;
otherwise the pure computation of `configure` runs.  The source script has
no validation (its inputs are hard-coded positive literals), so the guard
is taken from the spec's error-handling section. -/
def configureChecked (sigma2 tau confidence_scale : ℚ) :
    Except ConfigError ConfigResult :=
  if sigma2 ≤ 0 ∨ tau ≤ 0 ∨ confidence_scale ≤ 0 then
    .error .invalidArgument
  else
    .ok (configure sigma2 tau confidence_scale)

/-- The Gamma-distribution variance `shape/rate^2` of the noise-precision
prior produced by the configurator. -/
def alphaVariance (sigma2 tau confidence_scale : ℚ) : ℚ :=
  let c := configure sigma2 tau confidence_scale
  c.alpha_1 / c.alpha_2 ^ 2

/-- The Gamma-distribution variance `shape/rate^2` of the weight-precision
prior produced by the configurator. -/
def lambdaVariance (sigma2 tau confidence_scale : ℚ) : ℚ :=
  let c := configure sigma2 tau confidence_scale
  c.lambda_1 / c.lambda_2 ^ 2

/-- Sanity link between the model and the source: at the source's
hard-coded inputs the modelled configurator reproduces the script's
bindings. -/
theorem configure_matches_source :
    configure (59 / 5) 10 (10 ^ 5) =
      { alpha_1 := Code.alpha_1
        alpha_2 := Code.alpha_2
        lambda_1 := Code.lambda_1
        lambda_2 := Code.lambda_2
        alpha := Code.alpha
        lambda_param := Code.lam } := by
  simp [configure, Code.alpha_1, Code.alpha_2, Code.lambda_1, Code.lambda_2,
    Code.alpha, Code.lam, Code.big_number]

/-! Model of name binding in the notebook script (regularized-regression
cells).  Executing a cell binds names; a print statement dereferences
names against the environment of previously bound names, and an unbound
name is a `NameError`. -/

/-- Python runtime error raised when an unbound name is dereferenced. -/
inductive PyError where
  | nameError (undefinedName : String)
deriving Repr, DecidableEq

/-- Dereference a name against the set of bound names. -/
def lookupName (env : List String) (n : String) : Except PyError Unit :=
  if n ∈ env then .ok () else .error (.nameError n)

/-- Evaluate a statement that dereferences the given names in order,
stopping at the first unbound one. -/
def derefAll (env : List String) : List String → Except PyError Unit
  | [] => .ok ()
  | n :: rest => do
      lookupName env n
      derefAll env rest

/-- Names bound by the first code cell (imports and the Boston data). -/
def cell1Bound : List String :=
  ["np", "plt", "sns", "datasets", "boston", "X_train", "y_train"]

/-- Names bound by the Ridge/Lasso cell. -/
def cell2Bound : List String :=
  ["Ridge", "Lasso", "alpha", "ridge_model", "lasso_model"]

/-- Names bound by the RidgeCV/LassoCV cell: the fitted models are bound
to `ridgeCV_model` and `lassoCV_model`. -/
def cell3Bound : List String :=
  ["RidgeCV", "LassoCV", "alphas", "ridgeCV_model", "lassoCV_model"]

/-- The environment in force when the reporting cell runs. -/
def envBeforeCell4 : List String := cell1Bound ++ cell2Bound ++ cell3Bound

/-- The names the reporting cell dereferences:
`print('Ridge alpha:', ridgeCV.alpha_)` and
`print('Lasso alpha:', lassoCV.alpha_)`. -/
def cell4Refs : List String := ["ridgeCV", "lassoCV"]

/-! Model of the Poisson-regression cell. -/

/-- A script statement, abstracted to the names it binds and the names it
dereferences. -/
structure PyStmt where
  binds : List String
  uses : List String
deriving Repr, DecidableEq

/-- The four statements of the Poisson cell, in source order. -/
def poissonCell : List PyStmt :=
  [ { binds := ["sm"], uses := [] },
    { binds := ["X_train_with_constant"], uses := ["sm", "X_train"] },
    { binds := ["poisson_model"], uses := ["sm", "y_train", "X_train"] },
    { binds := [], uses := ["poisson_model"] } ]

/-- The arguments of the `sm.GLM` construction in the source:
`sm.GLM(y_train, X_train, family=sm.families.Poisson())`. -/
structure GLMCall where
  endog : String
  exog : String
  family : String
deriving Repr, DecidableEq

/-- The GLM call of the Poisson cell as written in the source. -/
def poissonGLMCall : GLMCall :=
  { endog := "y_train", exog := "X_train", family := "Poisson" }

/-- Semantics of `sm.add_constant`: prepend a constant-one column to the
design matrix (one entry per row). -/
def add_constant (X : List (List ℚ)) : List (List ℚ) :=
  X.map (fun row => 1 :: row)

/-- C1: for every strictly positive `sigma2`, `tau`, `confidence_scale`,
the configurator's outputs satisfy `alpha_1 / alpha_2 = 1/sigma2` and
`lambda_1 / lambda_2 = 1/tau`, independently of `confidence_scale`. -/
theorem mean_preservation (sigma2 tau confidence_scale : ℚ)
    (hs : 0 < sigma2) (ht : 0 < tau) (hb : 0 < confidence_scale) :
    (configure sigma2 tau confidence_scale).alpha_1 /
        (configure sigma2 tau confidence_scale).alpha_2 = 1 / sigma2 ∧
    (configure sigma2 tau confidence_scale).lambda_1 /
        (configure sigma2 tau confidence_scale).lambda_2 = 1 / tau := by
  have hb' : confidence_scale ≠ 0 := ne_of_gt hb
  refine ⟨?_, ?_⟩ <;> simp only [configure] <;>
    exact mul_div_cancel_left₀ _ hb'

/-- Witness for C1 at `sigma2 = 2`, `tau = 5`, `confidence_scale = 7`. -/
theorem mean_preservation_witness :
    (configure 2 5 7).alpha_1 / (configure 2 5 7).alpha_2 = 1 / 2 ∧
    (configure 2 5 7).lambda_1 / (configure 2 5 7).lambda_2 = 1 / 5 :=
  mean_preservation 2 5 7 (by norm_num) (by norm_num) (by norm_num)

/-- C3: for every strictly positive `sigma2`, `tau`, `confidence_scale`,
the configurator returns the six-tuple
`(confidence_scale * (1/sigma2), confidence_scale,
confidence_scale * (1/tau), confidence_scale, 1/sigma2, 1/tau)`, and the
last two components are exactly the values the source's fitting call
passes as `alpha_init` and `lambda_init`. -/
theorem configure_definition (sigma2 tau confidence_scale : ℚ)
    (hs : 0 < sigma2) (ht : 0 < tau) (hb : 0 < confidence_scale) :
    configure sigma2 tau confidence_scale =
      { alpha_1 := confidence_scale * (1 / sigma2)
        alpha_2 := confidence_scale
        lambda_1 := confidence_scale * (1 / tau)
        lambda_2 := confidence_scale
        alpha := 1 / sigma2
        lambda_param := 1 / tau } ∧
    Code.bayes_model_args.alpha_init = (configure (59 / 5) 10 (10 ^ 5)).alpha ∧
    Code.bayes_model_args.lambda_init =
      (configure (59 / 5) 10 (10 ^ 5)).lambda_param := by
  refine ⟨rfl, ?_, ?_⟩ <;>
    norm_num [configure, Code.bayes_model_args, Code.alpha, Code.lam]

/-- Witness for C3 at `sigma2 = 2`, `tau = 5`, `confidence_scale = 7`. -/
theorem configure_definition_witness :
    configure 2 5 7 =
      { alpha_1 := 7 * (1 / 2), alpha_2 := 7, lambda_1 := 7 * (1 / 5),
        lambda_2 := 7, alpha := 1 / 2, lambda_param := 1 / 5 } ∧
    Code.bayes_model_args.alpha_init = (configure (59 / 5) 10 (10 ^ 5)).alpha ∧
    Code.bayes_model_args.lambda_init =
      (configure (59 / 5) 10 (10 ^ 5)).lambda_param :=
  configure_definition 2 5 7 (by norm_num) (by norm_num) (by norm_num)

/-- C4: nonpositive `sigma2`, `tau` or `confidence_scale` is reported as
`invalidArgument` before any computation; strictly positive inputs never
fail and yield the pure configurator result. -/
theorem invalid_argument_handling (sigma2 tau confidence_scale : ℚ) :
    ((sigma2 ≤ 0 ∨ tau ≤ 0 ∨ confidence_scale ≤ 0) →
      configureChecked sigma2 tau confidence_scale =
        .error .invalidArgument) ∧
    (0 < sigma2 → 0 < tau → 0 < confidence_scale →
      configureChecked sigma2 tau confidence_scale =
        .ok (configure sigma2 tau confidence_scale)) := by
  constructor
  · intro h
    unfold configureChecked
    rw [if_pos h]
  · intro hs ht hb
    unfold configureChecked
    rw [if_neg]
    simp [not_or, not_le]
    exact ⟨hs, ht, hb⟩

/-- Witness for C4: an invalid input errors; a valid input succeeds. -/
theorem invalid_argument_handling_witness :
    configureChecked (-1) 1 1 = .error .invalidArgument ∧
    configureChecked 1 2 3 = .ok (configure 1 2 3) :=
  ⟨(invalid_argument_handling (-1) 1 1).1 (Or.inl (by norm_num)),
   (invalid_argument_handling 1 2 3).2 (by norm_num) (by norm_num)
     (by norm_num)⟩

/-- C5: for every strictly positive input triple, `alpha_2` and
`lambda_2` equal `confidence_scale` exactly. -/
theorem exact_rate_components (sigma2 tau confidence_scale : ℚ)
    (hs : 0 < sigma2) (ht : 0 < tau) (hb : 0 < confidence_scale) :
    (configure sigma2 tau confidence_scale).alpha_2 = confidence_scale ∧
    (configure sigma2 tau confidence_scale).lambda_2 = confidence_scale :=
  ⟨rfl, rfl⟩

/-- Witness for C5 at `sigma2 = 3`, `tau = 4`, `confidence_scale = 6`. -/
theorem exact_rate_components_witness :
    (configure 3 4 6).alpha_2 = 6 ∧ (configure 3 4 6).lambda_2 = 6 :=
  exact_rate_components 3 4 6 (by norm_num) (by norm_num) (by norm_num)

/-- The alpha-prior variance simplifies to `1 / (sigma2 * B)`. -/
theorem alphaVariance_eq (sigma2 tau b : ℚ) (hb : b ≠ 0) :
    alphaVariance sigma2 tau b = 1 / (sigma2 * b) := by
  simp only [alphaVariance, configure]
  rw [sq, mul_div_mul_left _ _ hb, div_div]

/-- The lambda-prior variance simplifies to `1 / (tau * B)`. -/
theorem lambdaVariance_eq (sigma2 tau b : ℚ) (hb : b ≠ 0) :
    lambdaVariance sigma2 tau b = 1 / (tau * b) := by
  simp only [lambdaVariance, configure]
  rw [sq, mul_div_mul_left _ _ hb, div_div]

/-- C6: with `sigma2`, `tau` fixed and strictly positive, increasing the
confidence scale strictly decreases both Gamma-prior variances
`alpha_1/alpha_2^2` and `lambda_1/lambda_2^2`. -/
theorem variance_strictly_decreasing (sigma2 tau b1 b2 : ℚ)
    (hs : 0 < sigma2) (ht : 0 < tau) (hb1 : 0 < b1) (h12 : b1 < b2) :
    alphaVariance sigma2 tau b2 < alphaVariance sigma2 tau b1 ∧
    lambdaVariance sigma2 tau b2 < lambdaVariance sigma2 tau b1 := by
  have hb2 : 0 < b2 := hb1.trans h12
  constructor
  · rw [alphaVariance_eq sigma2 tau b2 (ne_of_gt hb2),
      alphaVariance_eq sigma2 tau b1 (ne_of_gt hb1)]
    exact one_div_lt_one_div_of_lt (mul_pos hs hb1)
      (mul_lt_mul_of_pos_left h12 hs)
  · rw [lambdaVariance_eq sigma2 tau b2 (ne_of_gt hb2),
      lambdaVariance_eq sigma2 tau b1 (ne_of_gt hb1)]
    exact one_div_lt_one_div_of_lt (mul_pos ht hb1)
      (mul_lt_mul_of_pos_left h12 ht)

/-- Witness for C6 at `sigma2 = 2`, `tau = 5`, scales `3 < 9`. -/
theorem variance_strictly_decreasing_witness :
    alphaVariance 2 5 9 < alphaVariance 2 5 3 ∧
    lambdaVariance 2 5 9 < lambdaVariance 2 5 3 :=
  variance_strictly_decreasing 2 5 3 9 (by norm_num) (by norm_num)
    (by norm_num) (by norm_num)

/-- C7: the source script's hard-coded values: `alpha ≈ 0.08475` (within
`10^-5`), `alpha_1 ≈ 8474.58` (within `10^-2`), `alpha_2 = 100000`,
`lam = 0.1`, `lambda_1 = 10000`, `lambda_2 = 100000`. -/
theorem worked_example :
    |Code.alpha - 8475 / 100000| < 1 / 100000 ∧
    |Code.alpha_1 - 847458 / 100| < 1 / 100 ∧
    Code.alpha_2 = 100000 ∧
    Code.lam = 1 / 10 ∧
    Code.lambda_1 = 10000 ∧
    Code.lambda_2 = 100000 := by
  refine ⟨?_, ?_, ?_, ?_, ?_, ?_⟩ <;>
    norm_num [Code.alpha, Code.alpha_1, Code.alpha_2, Code.lam,
      Code.lambda_1, Code.lambda_2, Code.big_number, abs_lt]

/-- C8: the configurator is deterministic: two runs on equal inputs
return equal results, for both the pure and the checked variants; the
embedding as total functions on their arguments alone is the formal
counterpart of side-effect freedom. -/
theorem configure_deterministic (s t b s' t' b' : ℚ)
    (hs : s = s') (ht : t = t') (hb : b = b') :
    configure s t b = configure s' t' b' ∧
    configureChecked s t b = configureChecked s' t' b' := by
  subst hs; subst ht; subst hb
  exact ⟨rfl, rfl⟩

/-- Witness for C8 at the input triple `(1, 2, 3)`. -/
theorem configure_deterministic_witness :
    configure 1 2 3 = configure 1 2 3 ∧
    configureChecked 1 2 3 = configureChecked 1 2 3 :=
  configure_deterministic 1 2 3 1 2 3 rfl rfl rfl

/-- C9: the reporting cell dereferences `ridgeCV` and `lassoCV`, which are
never bound (the models are bound to `ridgeCV_model` and `lassoCV_model`),
so running it yields a `NameError` for `ridgeCV` instead of printing. -/
theorem reporting_cell_name_error :
    derefAll envBeforeCell4 cell4Refs = .error (.nameError "ridgeCV") ∧
    "ridgeCV" ∉ envBeforeCell4 ∧
    "lassoCV" ∉ envBeforeCell4 ∧
    "ridgeCV_model" ∈ envBeforeCell4 ∧
    "lassoCV_model" ∈ envBeforeCell4 := by
  refine ⟨?_, by decide, by decide, by decide, by decide⟩
  rfl

/-- C10: the Poisson GLM is constructed on the raw `X_train`, not on the
intercept-augmented matrix; `X_train_with_constant` is unused after its
binding; and for any nonempty design matrix the raw matrix differs from
its `add_constant` augmentation, so the fitted model has no intercept
column. -/
theorem poisson_glm_no_intercept :
    poissonGLMCall.exog = "X_train" ∧
    poissonGLMCall.exog ≠ "X_train_with_constant" ∧
    (∀ st ∈ poissonCell.drop 2, "X_train_with_constant" ∉ st.uses) ∧
    (∀ X : List (List ℚ), X ≠ [] → X ≠ add_constant X) := by
  refine ⟨rfl, by decide, by decide, ?_⟩
  intro X hX h
  match X, hX with
  | row :: rest, _ =>
    rw [add_constant, List.map_cons] at h
    have hrow : row = 1 :: row := (List.cons.injEq ..).mp h |>.1
    have := congrArg List.length hrow
    simp at this

/-- Witness for C10: the universally quantified part at `X = [[2]]`. -/
theorem poisson_glm_no_intercept_witness :
    poissonGLMCall.exog = "X_train" ∧
    ([[(2 : ℚ)]] : List (List ℚ)) ≠ add_constant [[(2 : ℚ)]] :=
  ⟨poisson_glm_no_intercept.1,
   poisson_glm_no_intercept.2.2.2 [[(2 : ℚ)]] (by decide)⟩
